import Mathlib

/-!
Verification of the AI Image Studio client (Streamlit + Stability API).

Shallow embedding of the three source modules:
- `modules/config.py`   : static preset tables and API configuration,
- `modules/image_generator.py` : `StabilityImageGenerator` (prompt
  enhancement, single-image generation, client-side fan-out),
- `modules/app.py`      : v1 API plumbing (`_post_json`, `_post_multipart`,
  `_decode_artifacts_to_pil`), operation wrappers (`txt2img`, `img2img`,
  `upscale_esrgan`), the history ledger (`add_to_history`) and the Generate
  tab's control flow.

Modelling conventions:
- HTTP is an oracle `net : HttpRequest → HttpResponse`; every function that
  posts also returns the list of requests it issued, so "zero outbound
  calls" is a statement about that trace.
- Python exceptions become `Except String`; `st.stop()` becomes a dedicated
  outcome constructor.
- The standard-library base64 decoder and PIL image parser are abstracted
  as a parameter `b64decode : String → List Nat` from base64 text to image
  bytes; the claims under study are independent of its concrete behaviour.
- Python floats (`cost_per_image = 0.04`, `cfg_scale`, `image_strength`)
  are modelled as natural numbers in hundredths, so arithmetic stays exact.
- JSON request payloads are flattened to association lists of string pairs.
-/

namespace AIImageStudio

/-- A decoded raster image, identified by its byte content
(`PIL.Image.open(io.BytesIO(bytes))` in the source). -/
structure Image where
  bytes : List Nat
deriving DecidableEq, Repr

/-- One entry of the `artifacts` list of a JSON response; the `base64`
field may be absent (`art.get("base64")` returning `None`). -/
structure Artifact where
  base64 : Option String
deriving DecidableEq, Repr

/-- A parsed JSON response body; the `artifacts` key may be absent
(`json_resp.get("artifacts", [])`). -/
structure JsonResp where
  artifacts : Option (List Artifact)
deriving DecidableEq, Repr

/-- An outbound HTTP POST as issued by `requests.post`: URL, timeout
(seconds), `Accept` header, form/JSON fields, and multipart file parts. -/
structure HttpRequest where
  url : String
  timeout : Nat
  accept : String
  fields : List (String × String)
  files : List (String × List Nat)
deriving DecidableEq, Repr

/-- An HTTP response: status code, body text (`r.text`), body bytes
(`r.content`), and the parsed JSON body (`r.json()`). -/
structure HttpResponse where
  status : Nat
  text : String
  content : List Nat
  json : JsonResp
deriving DecidableEq, Repr

/-! ### modules/config.py -/

/-- `STYLE_PRESETS` from `modules/config.py` (dict, embedded as an
association list in source order). -/
def STYLE_PRESETS : List (String × String) :=
  [("None", ""),
   ("Photorealistic", "ultra-realistic, high-definition, professional photography, sharp details"),
   ("Digital Art", "digital painting, concept art, detailed illustration, vibrant colors"),
   ("Cartoon Style", "cartoon, animated style, colorful and fun, playful"),
   ("Oil Painting", "classical oil painting, artistic brushstrokes, textured canvas"),
   ("Sketch", "pencil sketch, hand-drawn, artistic lines, monochrome"),
   ("Vintage", "vintage style, retro aesthetic, aged look, nostalgic"),
   ("Cyberpunk", "neon lights, futuristic, cyberpunk aesthetic, dark atmosphere"),
   ("Minimalist", "clean, simple, minimalist design, elegant simplicity")]

/-- `ASPECT_RATIOS` from `modules/config.py`. -/
def ASPECT_RATIOS : List (String × String) :=
  [("Square (1:1)", "1:1"),
   ("Portrait (9:16)", "9:16"),
   ("Landscape (16:9)", "16:9"),
   ("Wide (21:9)", "21:9")]

/-- `STABILITY_API_CONFIG["base_url"]`. -/
def STABILITY_API_CONFIG_base_url : String :=
  "https://api.stability.ai/v2beta/stable-image/generate/core"

/-- `STABILITY_API_CONFIG["timeout"]` (seconds). -/
def STABILITY_API_CONFIG_timeout : Nat := 60

/-- `STABILITY_API_CONFIG["cost_per_image"]`, the float `0.04` modelled in
hundredths. -/
def cost_per_image_hundredths : Nat := 4

/-- Python dict lookup `d[key]` over an association list, `none` when the
key is absent. -/
def dictFind (d : List (String × String)) (key : String) : Option String :=
  (d.find? (fun p => p.1 == key)).map (fun p => p.2)

/-! ### modules/image_generator.py -/

/-- Python `str.strip()`: drop leading and trailing whitespace.
(`String.trim` is extensionally the same but does not reduce in the
kernel, so the list form is used.) -/
def pyStrip (s : String) : String :=
  ⟨((s.data.dropWhile Char.isWhitespace).reverse.dropWhile Char.isWhitespace).reverse⟩

/-- The fixed quality-boost suffix appended by `enhance_prompt` when
`quality_boost` is true. -/
def QUALITY_SUFFIX : String := ", high quality, detailed, professional, sharp focus"

/-- `StabilityImageGenerator.enhance_prompt` (modules/image_generator.py,
lines 24-36): strip the prompt, append `", " + style_text` when the style
key is not `"None"`, is present in `STYLE_PRESETS` and its text is
non-empty, then append the quality suffix when `quality_boost` is set. -/
def enhance_prompt (prompt : String) (style : String) (quality_boost : Bool) : String :=
  let enhanced := pyStrip prompt
  let enhanced :=
    if style ≠ "None" then
      match dictFind STYLE_PRESETS style with
      | some style_text => if style_text ≠ "" then enhanced ++ ", " ++ style_text else enhanced
      | none => enhanced
    else enhanced
  if quality_boost then enhanced ++ QUALITY_SUFFIX else enhanced

/-- The request issued by `StabilityImageGenerator.generate_image`:
POST to the configured base URL with `Accept: image/*`, the prompt data
fields, the dummy multipart part `{"none": ""}`, and the configured
timeout. -/
def generate_image_request (prompt aspect_ratio : String) : HttpRequest :=
  { url := STABILITY_API_CONFIG_base_url
    timeout := STABILITY_API_CONFIG_timeout
    accept := "image/*"
    fields := [("prompt", prompt), ("aspect_ratio", aspect_ratio), ("output_format", "png")]
    files := [("none", [])] }

/-- `StabilityImageGenerator.generate_image` (modules/image_generator.py,
lines 38-69).  `check_api_key` is `bool(self.api_key)`, so an empty key
raises `ValueError` before any request; a 200 response is parsed as raw
image bytes; any other status raises `API Error {code}: {text}`, which the
enclosing `except` re-wraps as `Generation failed: ...`.  The second
component is the trace of issued requests. -/
def generate_image (api_key prompt aspect_ratio : String)
    (net : HttpRequest → HttpResponse) : Except String Image × List HttpRequest :=
  if api_key = "" then
    (.error "Stability AI API key not configured", [])
  else
    let req := generate_image_request prompt aspect_ratio
    let r := net req
    if r.status = 200 then
      (.ok ⟨r.content⟩, [req])
    else
      (.error ("Generation failed: API Error " ++ toString r.status ++ ": " ++ r.text), [req])

/-- The sequential loop of `generate_multiple`: `num_variants` calls to
`generate_image`, collecting results in call order and accumulating the
per-image cost; the first failure aborts the whole batch (the Python
exception propagates). -/
def generate_multiple_loop (api_key prompt aspect_ratio : String)
    (net : HttpRequest → HttpResponse) : Nat → Except String (List Image × Nat)
  | 0 => .ok ([], 0)
  | n + 1 =>
    match generate_multiple_loop api_key prompt aspect_ratio net n with
    | .error e => .error e
    | .ok (results, cost) =>
      match (generate_image api_key prompt aspect_ratio net).1 with
      | .error e => .error e
      | .ok img => .ok (results ++ [img], cost + cost_per_image_hundredths)

/-- `StabilityImageGenerator.generate_multiple` (modules/image_generator.py,
lines 71-84): enhance the prompt (quality boost forced on), resolve the
aspect-ratio label with default `"1:1"`, and run the sequential loop. -/
def generate_multiple (api_key prompt : String) (num_variants : Nat)
    (style aspect_ratio : String) (net : HttpRequest → HttpResponse) :
    Except String (List Image × Nat) :=
  let enhanced := enhance_prompt prompt style true
  let api_aspect_ratio := (dictFind ASPECT_RATIOS aspect_ratio).getD "1:1"
  generate_multiple_loop api_key enhanced api_aspect_ratio net num_variants

/-! ### modules/app.py — API plumbing -/

/-- `ESRGAN_ENGINE` (modules/app.py line 35). -/
def ESRGAN_ENGINE : String := "esrgan-v1-x2plus"

/-- The loop body of `_decode_artifacts_to_pil`: walk the artifact list,
skip entries whose `base64` field is missing or empty (`if not b64:
continue`), decode the rest in order. -/
def decode_artifacts_list (b64decode : String → List Nat) :
    List Artifact → List Image
  | [] => []
  | art :: rest =>
    match art.base64 with
    | none => decode_artifacts_list b64decode rest
    | some b64 =>
      if b64 = "" then decode_artifacts_list b64decode rest
      else ⟨b64decode b64⟩ :: decode_artifacts_list b64decode rest

/-- `_decode_artifacts_to_pil` (modules/app.py, lines 94-103):
`json_resp.get("artifacts", [])` then the skipping decode loop. -/
def decode_artifacts_to_pil (b64decode : String → List Nat) (json_resp : JsonResp) :
    List Image :=
  decode_artifacts_list b64decode (json_resp.artifacts.getD [])

/-- The request issued by `_post_json` (modules/app.py line 107):
JSON body, `Accept: application/json`, timeout 90 seconds. -/
def post_json_request (url : String) (payload : List (String × String)) : HttpRequest :=
  { url := url, timeout := 90, accept := "application/json",
    fields := payload, files := [] }

/-- `_post_json` (modules/app.py, lines 106-110): POST, and on any
non-200 status raise `HTTP {code}: {text}`; otherwise return the parsed
JSON body.  Second component: issued requests. -/
def post_json (url : String) (payload : List (String × String))
    (net : HttpRequest → HttpResponse) : Except String JsonResp × List HttpRequest :=
  let req := post_json_request url payload
  let r := net req
  if r.status ≠ 200 then
    (.error ("HTTP " ++ toString r.status ++ ": " ++ r.text), [req])
  else
    (.ok r.json, [req])

/-- The request issued by `_post_multipart` (modules/app.py line 114):
multipart body, timeout 120 seconds. -/
def post_multipart_request (url : String) (files : List (String × List Nat))
    (data : List (String × String)) : HttpRequest :=
  { url := url, timeout := 120, accept := "application/json",
    fields := data, files := files }

/-- `_post_multipart` (modules/app.py, lines 113-117): same non-200
handling as `_post_json`, over a multipart request. -/
def post_multipart (url : String) (files : List (String × List Nat))
    (data : List (String × String)) (net : HttpRequest → HttpResponse) :
    Except String JsonResp × List HttpRequest :=
  let req := post_multipart_request url files data
  let r := net req
  if r.status ≠ 200 then
    (.error ("HTTP " ++ toString r.status ++ ": " ++ r.text), [req])
  else
    (.ok r.json, [req])

/-- The flattened JSON payload built by `txt2img` (modules/app.py, lines
137-152): positive prompt, optional negative prompt with weight -1,
numeric knobs, optional style preset, and the seed only when non-zero
(`if seed:`).  `cfg_scale` is modelled in hundredths. -/
def txt2img_payload (prompt : String) (negative_prompt : Option String)
    (width height cfg_scale steps samples : Nat) (style_preset : Option String)
    (seed : Nat) : List (String × String) :=
  [("text_prompts[0][text]", prompt), ("text_prompts[0][weight]", "1")]
  ++ (match negative_prompt with
      | some n => [("text_prompts[1][text]", n), ("text_prompts[1][weight]", "-1")]
      | none => [])
  ++ [("cfg_scale", toString cfg_scale), ("height", toString height),
      ("width", toString width), ("steps", toString steps),
      ("samples", toString samples)]
  ++ (match style_preset with
      | some s => [("style_preset", s)]
      | none => [])
  ++ (if seed ≠ 0 then [("seed", toString seed)] else [])

/-- `txt2img` (modules/app.py, lines 124-155): build the v1 text-to-image
URL, post the JSON payload, decode the artifacts of a successful
response. -/
def txt2img (host engine_id prompt : String) (negative_prompt : Option String)
    (width height cfg_scale steps samples : Nat) (style_preset : Option String)
    (seed : Nat) (b64decode : String → List Nat)
    (net : HttpRequest → HttpResponse) : Except String (List Image) × List HttpRequest :=
  let url := host ++ "/v1/generation/" ++ engine_id ++ "/text-to-image"
  match post_json url
      (txt2img_payload prompt negative_prompt width height cfg_scale steps samples
        style_preset seed) net with
  | (.error e, tr) => (.error e, tr)
  | (.ok resp, tr) => (.ok (decode_artifacts_to_pil b64decode resp), tr)

/-- The multipart data fields built by `img2img` (modules/app.py, lines
181-195); `image_strength` is modelled in hundredths. -/
def img2img_data (prompt : String) (negative_prompt : Option String)
    (image_strength steps samples : Nat) (style_preset : Option String)
    (seed : Nat) (init_image_mode : String) : List (String × String) :=
  [("image_strength", toString image_strength),
   ("init_image_mode", init_image_mode),
   ("steps", toString steps), ("samples", toString samples),
   ("text_prompts[0][text]", prompt), ("text_prompts[0][weight]", "1")]
  ++ (match negative_prompt with
      | some n => [("text_prompts[1][text]", n), ("text_prompts[1][weight]", "-1")]
      | none => [])
  ++ (match style_preset with
      | some s => [("style_preset", s)]
      | none => [])
  ++ (if seed ≠ 0 then [("seed", toString seed)] else [])

/-- `img2img` (modules/app.py, lines 158-198): build the v1
image-to-image URL, post the init image and data fields as multipart,
decode the artifacts of a successful response. -/
def img2img (host engine_id : String) (init_image : Image) (prompt : String)
    (negative_prompt : Option String) (image_strength steps samples : Nat)
    (style_preset : Option String) (seed : Nat) (init_image_mode : String)
    (b64decode : String → List Nat) (net : HttpRequest → HttpResponse) :
    Except String (List Image) × List HttpRequest :=
  let url := host ++ "/v1/generation/" ++ engine_id ++ "/image-to-image"
  match post_multipart url [("init_image", init_image.bytes)]
      (img2img_data prompt negative_prompt image_strength steps samples
        style_preset seed init_image_mode) net with
  | (.error e, tr) => (.error e, tr)
  | (.ok resp, tr) => (.ok (decode_artifacts_to_pil b64decode resp), tr)

/-- The optional width/height data fields of `upscale_esrgan`
(modules/app.py, lines 259-263): each field is sent only when the Python
value is truthy (`if desired_w:`), i.e. present and non-zero. -/
def upscale_data (desired_w desired_h : Option Nat) : List (String × String) :=
  (if desired_w.getD 0 ≠ 0 then [("width", toString (desired_w.getD 0))] else [])
  ++ (if desired_h.getD 0 ≠ 0 then [("height", toString (desired_h.getD 0))] else [])

/-- The single request issued by `upscale_esrgan` (through
`_post_multipart`). -/
def upscale_request (host : String) (image : Image) (desired_w desired_h : Option Nat) :
    HttpRequest :=
  post_multipart_request
    (host ++ "/v1/generation/" ++ ESRGAN_ENGINE ++ "/image-to-image/upscale")
    [("image", image.bytes)] (upscale_data desired_w desired_h)

/-- `upscale_esrgan` (modules/app.py, lines 249-269): post the image as
multipart, decode the artifacts; an empty decoded list raises
`Upscale returned no images`, otherwise the first decoded image is
returned. -/
def upscale_esrgan (host : String) (image : Image) (desired_w desired_h : Option Nat)
    (b64decode : String → List Nat) (net : HttpRequest → HttpResponse) :
    Except String Image × List HttpRequest :=
  let url := host ++ "/v1/generation/" ++ ESRGAN_ENGINE ++ "/image-to-image/upscale"
  match post_multipart url [("image", image.bytes)] (upscale_data desired_w desired_h) net with
  | (.error e, tr) => (.error e, tr)
  | (.ok resp, tr) =>
    match decode_artifacts_to_pil b64decode resp with
    | [] => (.error "Upscale returned no images", tr)
    | img :: _ => (.ok img, tr)

/-! ### modules/app.py — history ledger and Generate tab -/

/-- One entry of `st.session_state.history` as built by `add_to_history`. -/
structure HistoryEntry where
  mode : String
  engine : String
  prompt : String
  count : Nat
  images : List Image
  ts : String
deriving DecidableEq, Repr

/-- The dict literal inserted by `add_to_history`: the new entry stores
the image count and at most the first four images. -/
def historyEntry (mode engine prompt : String) (images : List Image) (ts : String) :
    HistoryEntry :=
  { mode := mode, engine := engine, prompt := prompt,
    count := images.length, images := images.take 4, ts := ts }

/-- `add_to_history` (modules/app.py, lines 316-326):
`history.insert(0, entry)` followed by `history = history[:20]`. -/
def add_to_history (mode engine prompt : String) (images : List Image) (ts : String)
    (history : List HistoryEntry) : List HistoryEntry :=
  (historyEntry mode engine prompt images ts :: history).take 20

/-- Outcome of one run of the Generate tab body: `st.stop()` from
`_assert_api_key`, a `st.warning`, a `st.error`, or rendered images. -/
inductive TabOutcome where
  | stopped : TabOutcome
  | warned : String → TabOutcome
  | errorShown : String → TabOutcome
  | rendered : List Image → TabOutcome
deriving DecidableEq, Repr

/-- The Generate tab body (modules/app.py, lines 375-403), run with
`go = True`: `_assert_api_key` stops when the resolved credential is
empty (lines 88-91); otherwise `txt2img` is attempted, an exception is
shown via `st.error` with the history untouched, an empty result warns
with the history untouched, and a non-empty result is rendered and
recorded via `add_to_history`.  Returns the outcome, the new history and
the trace of issued requests. -/
def run_generate_tab (api_key host engine prompt : String)
    (negative_prompt : Option String) (width height cfg_scale steps samples : Nat)
    (style_preset : Option String) (seed : Nat) (b64decode : String → List Nat)
    (net : HttpRequest → HttpResponse) (ts : String) (history : List HistoryEntry) :
    TabOutcome × List HistoryEntry × List HttpRequest :=
  if api_key = "" then
    (.stopped, history, [])
  else
    match txt2img host engine prompt negative_prompt width height cfg_scale steps
        samples style_preset seed b64decode net with
    | (.error e, tr) => (.errorShown ("❌ Generation failed: " ++ e), history, tr)
    | (.ok imgs, tr) =>
      if imgs = [] then (.warned "No images returned.", history, tr)
      else (.rendered imgs, add_to_history "Generate" engine prompt imgs ts history, tr)

/-- `s` contains `t` verbatim as a contiguous substring (stated over the
character lists). -/
def containsText (s t : String) : Prop :=
  ∃ p q : List Char, s.data = p ++ t.data ++ q

end AIImageStudio

namespace AIImageStudio

/-! ### Shared lemmas -/

/-- The decode loop is an order-preserving filter-map over the artifact
list: entries with a missing or empty `base64` field are dropped, the
rest are decoded in order. -/
theorem decode_artifacts_list_eq (f : String → List Nat) (arts : List Artifact) :
    decode_artifacts_list f arts
      = (arts.filter (fun a => a.base64.getD "" != "")).map
          (fun a => ⟨f (a.base64.getD "")⟩) := by
  induction arts with
  | nil => rfl
  | cons a rest ih =>
    cases hb : a.base64 with
    | none => simp [decode_artifacts_list, hb, ih]
    | some s =>
      by_cases hs : s = ""
      · subst hs
        simp [decode_artifacts_list, hb, ih]
      · simp [decode_artifacts_list, hb, hs, ih]

/-- A string of the shape `a ++ b ++ c ++ t` contains `t` verbatim. -/
theorem containsText_three (a b c t : String) : containsText (a ++ b ++ c ++ t) t :=
  ⟨a.data ++ b.data ++ c.data, [], by simp [containsText, String.data_append]⟩

/-- A string of the shape `a ++ (b ++ c ++ d ++ t)` contains `t` verbatim. -/
theorem containsText_wrap (a b c d t : String) :
    containsText (a ++ (b ++ c ++ d ++ t)) t :=
  ⟨a.data ++ b.data ++ c.data ++ d.data, [], by simp [String.data_append]⟩

/-- `_post_json` on a non-200 response: the raised message and the trace. -/
theorem post_json_fail (url : String) (payload : List (String × String))
    (net : HttpRequest → HttpResponse)
    (h : (net (post_json_request url payload)).status ≠ 200) :
    post_json url payload net
      = (.error ("HTTP " ++ toString (net (post_json_request url payload)).status ++ ": "
            ++ (net (post_json_request url payload)).text),
         [post_json_request url payload]) := by
  simp only [post_json]
  rw [if_pos h]

/-- `_post_multipart` on a non-200 response: the raised message and the
trace. -/
theorem post_multipart_fail (url : String) (files : List (String × List Nat))
    (data : List (String × String)) (net : HttpRequest → HttpResponse)
    (h : (net (post_multipart_request url files data)).status ≠ 200) :
    post_multipart url files data net
      = (.error ("HTTP " ++ toString (net (post_multipart_request url files data)).status ++ ": "
            ++ (net (post_multipart_request url files data)).text),
         [post_multipart_request url files data]) := by
  simp only [post_multipart]
  rw [if_pos h]

/-- `_post_multipart` on a 200 response: the parsed JSON body and the
trace. -/
theorem post_multipart_ok (url : String) (files : List (String × List Nat))
    (data : List (String × String)) (net : HttpRequest → HttpResponse)
    (h : (net (post_multipart_request url files data)).status = 200) :
    post_multipart url files data net
      = (.ok (net (post_multipart_request url files data)).json,
         [post_multipart_request url files data]) := by
  simp only [post_multipart]
  rw [if_neg (fun hc => hc h)]

/-! ### Claims -/

/-- C1: decoding a JSON response keeps, in order, one image per artifact
entry whose `base64` field is present and non-empty, and silently skips
the rest; in particular when every entry has a non-empty `base64` field
the decoder returns exactly as many images as there are entries. -/
theorem decode_artifacts_order_and_skip (f : String → List Nat) (resp : JsonResp) :
    decode_artifacts_to_pil f resp
      = ((resp.artifacts.getD []).filter (fun a => a.base64.getD "" != "")).map
          (fun a => ⟨f (a.base64.getD "")⟩)
  ∧ ((∀ a ∈ resp.artifacts.getD [], a.base64.getD "" ≠ "") →
      (decode_artifacts_to_pil f resp).length = (resp.artifacts.getD []).length) := by
  constructor
  · exact decode_artifacts_list_eq f (resp.artifacts.getD [])
  · intro hall
    rw [decode_artifacts_to_pil, decode_artifacts_list_eq]
    rw [List.filter_eq_self.mpr (fun a ha => by simpa using hall a ha)]
    simp

theorem decode_artifacts_order_and_skip_witness :
    (decode_artifacts_to_pil (fun s => [s.length])
        ⟨some [⟨some "QQ=="⟩, ⟨some "Rg=="⟩]⟩).length = 2 :=
  (decode_artifacts_order_and_skip (fun s => [s.length])
      ⟨some [⟨some "QQ=="⟩, ⟨some "Rg=="⟩]⟩).2 (by decide)

/-- C9: decoding a response whose `artifacts` key is absent, or whose
artifacts list is empty, yields the empty image sequence (and no
error). -/
theorem decode_empty_yields_empty (f : String → List Nat) :
    decode_artifacts_to_pil f ⟨none⟩ = [] ∧ decode_artifacts_to_pil f ⟨some []⟩ = [] :=
  ⟨rfl, rfl⟩

/-- C10: on a successful upscale response, an empty decoded artifact list
makes `upscale_esrgan` fail with `Upscale returned no images`, while a
non-empty decoded list makes it return exactly the first decoded image. -/
theorem upscale_empty_raises_else_first (host : String) (image : Image)
    (dw dh : Option Nat) (f : String → List Nat) (net : HttpRequest → HttpResponse)
    (hok : (net (upscale_request host image dw dh)).status = 200) :
    (decode_artifacts_to_pil f (net (upscale_request host image dw dh)).json = [] →
      (upscale_esrgan host image dw dh f net).1 = .error "Upscale returned no images")
  ∧ (∀ img rest,
      decode_artifacts_to_pil f (net (upscale_request host image dw dh)).json = img :: rest →
      (upscale_esrgan host image dw dh f net).1 = .ok img) := by
  have hpm := post_multipart_ok
    (host ++ "/v1/generation/" ++ ESRGAN_ENGINE ++ "/image-to-image/upscale")
    [("image", image.bytes)] (upscale_data dw dh) net hok
  constructor
  · intro hdec
    simp only [upscale_request] at hdec
    simp only [upscale_esrgan]
    rw [hpm]
    simp [hdec]
  · intro img rest hdec
    simp only [upscale_request] at hdec
    simp only [upscale_esrgan]
    rw [hpm]
    simp [hdec]

theorem upscale_empty_raises_else_first_witness :
    (upscale_esrgan "h" ⟨[]⟩ none none (fun _ => [])
        (fun _ => ⟨200, "", [], ⟨some []⟩⟩)).1 = .error "Upscale returned no images" :=
  (upscale_empty_raises_else_first "h" ⟨[]⟩ none none (fun _ => [])
      (fun _ => ⟨200, "", [], ⟨some []⟩⟩) rfl).1 rfl

/-- C3: with an empty API credential, `generate_image` fails with the
configuration error and issues no request, and the Generate tab stops at
`_assert_api_key` with no request issued and the history untouched. -/
theorem missing_key_no_network :
    ∀ (prompt aspect host engine : String) (neg sp : Option String)
      (w h cfg steps samples seed : Nat) (f : String → List Nat)
      (net : HttpRequest → HttpResponse) (ts : String) (history : List HistoryEntry),
      generate_image "" prompt aspect net
          = (.error "Stability AI API key not configured", [])
    ∧ run_generate_tab "" host engine prompt neg w h cfg steps samples sp seed f net ts history
          = (.stopped, history, []) := by
  intro prompt aspect host engine neg sp w h cfg steps samples seed f net ts history
  exact ⟨rfl, rfl⟩

/-- C4: `add_to_history` inserts the new entry at the head and the ledger
never exceeds 20 entries; inserting 21 entries into an empty ledger
leaves exactly 20, with the 21st (most recent) at the head and the 1st
(oldest) evicted. -/
theorem history_head_insert_and_cap :
    (∀ mode engine prompt images ts history,
        (add_to_history mode engine prompt images ts history).head?
            = some (historyEntry mode engine prompt images ts)
      ∧ (add_to_history mode engine prompt images ts history).length ≤ 20)
  ∧ ((List.range 21).foldl
        (fun acc i => add_to_history "Generate" "sdxl" (toString i) [] "t" acc) []).length = 20
  ∧ (((List.range 21).foldl
        (fun acc i => add_to_history "Generate" "sdxl" (toString i) [] "t" acc) []).head?).map
        HistoryEntry.prompt = some "20"
  ∧ ((List.range 21).foldl
        (fun acc i => add_to_history "Generate" "sdxl" (toString i) [] "t" acc) []).all
        (fun e => e.prompt != "0") = true := by
  refine ⟨?_, by decide, by decide, by decide⟩
  intro mode engine prompt images ts history
  constructor
  · simp [add_to_history, List.take_succ_cons]
  · simp [add_to_history, List.length_take]

end AIImageStudio

namespace AIImageStudio

/-! ### More shared lemmas -/

/-- `enhance_prompt` when the style key resolves to a non-empty preset
text. -/
theorem enhance_eq_of_found (prompt style : String) (qb : Bool) (text : String)
    (hnone : style ≠ "None") (hfind : dictFind STYLE_PRESETS style = some text)
    (htext : text ≠ "") :
    enhance_prompt prompt style qb
      = pyStrip prompt ++ ", " ++ text ++ (if qb then QUALITY_SUFFIX else "") := by
  simp only [enhance_prompt, hfind]
  rw [if_pos hnone, if_pos htext]
  cases qb
  · simp [String.append_empty, String.append_assoc]
  · simp [String.append_assoc]

/-- The trace of `_post_json` is always its single request. -/
theorem post_json_trace (url : String) (payload : List (String × String))
    (net : HttpRequest → HttpResponse) :
    (post_json url payload net).2 = [post_json_request url payload] := by
  simp only [post_json]
  split <;> rfl

/-- The trace of `_post_multipart` is always its single request. -/
theorem post_multipart_trace (url : String) (files : List (String × List Nat))
    (data : List (String × String)) (net : HttpRequest → HttpResponse) :
    (post_multipart url files data net).2 = [post_multipart_request url files data] := by
  simp only [post_multipart]
  split <;> rfl

/-- The trace of `txt2img` is the single JSON POST it issues. -/
theorem txt2img_trace (host engine_id prompt : String) (neg : Option String)
    (w h cfg steps samples : Nat) (sp : Option String) (seed : Nat)
    (f : String → List Nat) (net : HttpRequest → HttpResponse) :
    (txt2img host engine_id prompt neg w h cfg steps samples sp seed f net).2
      = [post_json_request (host ++ "/v1/generation/" ++ engine_id ++ "/text-to-image")
          (txt2img_payload prompt neg w h cfg steps samples sp seed)] := by
  simp only [txt2img]
  rcases hpj : post_json (host ++ "/v1/generation/" ++ engine_id ++ "/text-to-image")
      (txt2img_payload prompt neg w h cfg steps samples sp seed) net with ⟨res, tr⟩
  have htr : tr = [post_json_request (host ++ "/v1/generation/" ++ engine_id ++ "/text-to-image")
      (txt2img_payload prompt neg w h cfg steps samples sp seed)] := by
    have := post_json_trace (host ++ "/v1/generation/" ++ engine_id ++ "/text-to-image")
      (txt2img_payload prompt neg w h cfg steps samples sp seed) net
    rwa [hpj] at this
  cases res <;> simp [htr]

/-- The trace of `img2img` is the single multipart POST it issues. -/
theorem img2img_trace (host engine_id : String) (init : Image) (prompt : String)
    (neg : Option String) (strength steps samples : Nat) (sp : Option String)
    (seed : Nat) (mode : String) (f : String → List Nat)
    (net : HttpRequest → HttpResponse) :
    (img2img host engine_id init prompt neg strength steps samples sp seed mode f net).2
      = [post_multipart_request (host ++ "/v1/generation/" ++ engine_id ++ "/image-to-image")
          [("init_image", init.bytes)]
          (img2img_data prompt neg strength steps samples sp seed mode)] := by
  simp only [img2img]
  rcases hpm : post_multipart (host ++ "/v1/generation/" ++ engine_id ++ "/image-to-image")
      [("init_image", init.bytes)]
      (img2img_data prompt neg strength steps samples sp seed mode) net with ⟨res, tr⟩
  have htr : tr = [post_multipart_request (host ++ "/v1/generation/" ++ engine_id ++ "/image-to-image")
      [("init_image", init.bytes)]
      (img2img_data prompt neg strength steps samples sp seed mode)] := by
    have := post_multipart_trace (host ++ "/v1/generation/" ++ engine_id ++ "/image-to-image")
      [("init_image", init.bytes)]
      (img2img_data prompt neg strength steps samples sp seed mode) net
    rwa [hpm] at this
  cases res <;> simp [htr]

/-- The trace of `upscale_esrgan` is the single multipart POST it issues. -/
theorem upscale_trace (host : String) (image : Image) (dw dh : Option Nat)
    (f : String → List Nat) (net : HttpRequest → HttpResponse) :
    (upscale_esrgan host image dw dh f net).2 = [upscale_request host image dw dh] := by
  simp only [upscale_esrgan, upscale_request]
  rcases hpm : post_multipart
      (host ++ "/v1/generation/" ++ ESRGAN_ENGINE ++ "/image-to-image/upscale")
      [("image", image.bytes)] (upscale_data dw dh) net with ⟨res, tr⟩
  have htr : tr = [post_multipart_request
      (host ++ "/v1/generation/" ++ ESRGAN_ENGINE ++ "/image-to-image/upscale")
      [("image", image.bytes)] (upscale_data dw dh)] := by
    have := post_multipart_trace
      (host ++ "/v1/generation/" ++ ESRGAN_ENGINE ++ "/image-to-image/upscale")
      [("image", image.bytes)] (upscale_data dw dh) net
    rwa [hpm] at this
  cases res with
  | error e => simp [htr]
  | ok resp =>
    cases hd : decode_artifacts_to_pil f resp with
    | nil => simp [hd, htr]
    | cons i rest => simp [hd, htr]

/-! ### Claims (continued) -/

/-- C2: on a response with any non-200 status, `_post_json`,
`_post_multipart` and `generate_image` all fail with a message containing
the response body text verbatim (so no image is produced), and the
Generate tab shows that failure leaving the history ledger unchanged. -/
theorem non_200_error_surfaces_body (net : HttpRequest → HttpResponse)
    (hfail : ∀ req, (net req).status ≠ 200) :
    (∀ url payload, ∃ msg, (post_json url payload net).1 = .error msg
        ∧ containsText msg (net (post_json_request url payload)).text)
  ∧ (∀ url files data, ∃ msg, (post_multipart url files data net).1 = .error msg
        ∧ containsText msg (net (post_multipart_request url files data)).text)
  ∧ (∀ api_key prompt aspect, api_key ≠ "" →
        ∃ msg, (generate_image api_key prompt aspect net).1 = .error msg
          ∧ containsText msg (net (generate_image_request prompt aspect)).text)
  ∧ (∀ api_key host engine prompt neg w h cfg steps samples sp seed f ts history,
        api_key ≠ "" →
        ∃ msg tr,
          run_generate_tab api_key host engine prompt neg w h cfg steps samples sp seed
              f net ts history
            = (.errorShown msg, history, tr)
        ∧ containsText msg
            (net (post_json_request (host ++ "/v1/generation/" ++ engine ++ "/text-to-image")
              (txt2img_payload prompt neg w h cfg steps samples sp seed))).text) := by
  refine ⟨?_, ?_, ?_, ?_⟩
  · intro url payload
    refine ⟨"HTTP " ++ toString (net (post_json_request url payload)).status ++ ": "
        ++ (net (post_json_request url payload)).text, ?_, ?_⟩
    · rw [post_json_fail url payload net (hfail _)]
    · exact containsText_three _ _ _ _
  · intro url files data
    refine ⟨"HTTP " ++ toString (net (post_multipart_request url files data)).status ++ ": "
        ++ (net (post_multipart_request url files data)).text, ?_, ?_⟩
    · rw [post_multipart_fail url files data net (hfail _)]
    · exact containsText_three _ _ _ _
  · intro api_key prompt aspect hk
    refine ⟨"Generation failed: API Error "
        ++ toString (net (generate_image_request prompt aspect)).status ++ ": "
        ++ (net (generate_image_request prompt aspect)).text, ?_, ?_⟩
    · simp only [generate_image]
      rw [if_neg hk, if_neg (hfail _)]
    · exact containsText_three _ _ _ _
  · intro api_key host engine prompt neg w h cfg steps samples sp seed f ts history hk
    refine ⟨"❌ Generation failed: "
        ++ ("HTTP "
          ++ toString (net (post_json_request (host ++ "/v1/generation/" ++ engine ++ "/text-to-image")
              (txt2img_payload prompt neg w h cfg steps samples sp seed))).status ++ ": "
          ++ (net (post_json_request (host ++ "/v1/generation/" ++ engine ++ "/text-to-image")
              (txt2img_payload prompt neg w h cfg steps samples sp seed))).text),
        [post_json_request (host ++ "/v1/generation/" ++ engine ++ "/text-to-image")
          (txt2img_payload prompt neg w h cfg steps samples sp seed)], ?_, ?_⟩
    · simp only [run_generate_tab, txt2img]
      rw [if_neg hk,
        post_json_fail (host ++ "/v1/generation/" ++ engine ++ "/text-to-image")
          (txt2img_payload prompt neg w h cfg steps samples sp seed) net (hfail _)]
    · exact containsText_wrap _ _ _ _ _

theorem non_200_error_surfaces_body_witness :
    ∃ msg, (post_json "u" [] (fun _ => ⟨429, "rate limited", [], ⟨none⟩⟩)).1 = Except.error msg
      ∧ containsText msg "rate limited" :=
  (non_200_error_surfaces_body (fun _ => ⟨429, "rate limited", [], ⟨none⟩⟩)
      (fun _ => (by decide : (429 : Nat) ≠ 200))).1 "u" []

end AIImageStudio

namespace AIImageStudio

/-- C5 counterexample: for the prompt `" a "` (surrounding whitespace) and
style `"Photorealistic"`, the result does not have the prompt itself as a
prefix followed by `", "` and the preset text, with or without the
quality-boost suffix — `enhance_prompt` strips the prompt first. -/
theorem enhance_style_cex :
    enhance_prompt " a " "Photorealistic" false
        ≠ " a " ++ ", " ++ "ultra-realistic, high-definition, professional photography, sharp details"
  ∧ enhance_prompt " a " "Photorealistic" false
        ≠ " a " ++ ", " ++ "ultra-realistic, high-definition, professional photography, sharp details"
          ++ QUALITY_SUFFIX
  ∧ enhance_prompt " a " "Photorealistic" true
        ≠ " a " ++ ", " ++ "ultra-realistic, high-definition, professional photography, sharp details"
  ∧ enhance_prompt " a " "Photorealistic" true
        ≠ " a " ++ ", " ++ "ultra-realistic, high-definition, professional photography, sharp details"
          ++ QUALITY_SUFFIX := by
  decide

/-- C5 (amended): for every style key in the preset table other than
`"None"`, the enhanced prompt is exactly the stripped prompt followed by
`", "`, the style's preset text, and the quality-boost suffix when
enabled. -/
theorem enhance_style_appends_trimmed (prompt style : String) (qb : Bool)
    (hmem : style ∈ STYLE_PRESETS.map Prod.fst) (hnone : style ≠ "None") :
    enhance_prompt prompt style qb
      = pyStrip prompt ++ ", " ++ (dictFind STYLE_PRESETS style).getD ""
          ++ (if qb then QUALITY_SUFFIX else "") := by
  simp only [STYLE_PRESETS, List.map_cons, List.map_nil, List.mem_cons,
    List.not_mem_nil, or_false] at hmem
  rcases hmem with rfl | rfl | rfl | rfl | rfl | rfl | rfl | rfl | rfl
  · exact absurd rfl hnone
  all_goals exact enhance_eq_of_found prompt _ qb _ (by decide) rfl (by decide)

theorem enhance_style_appends_trimmed_witness :
    enhance_prompt "x" "Photorealistic" true
      = pyStrip "x" ++ ", " ++ (dictFind STYLE_PRESETS "Photorealistic").getD ""
          ++ (if true then QUALITY_SUFFIX else "") :=
  enhance_style_appends_trimmed "x" "Photorealistic" true (by decide) (by decide)

/-- C7 counterexample: for the prompt `" a "` (surrounding whitespace) and
style `"None"`, the result is neither the prompt unchanged nor the prompt
followed by the quality-boost suffix — `enhance_prompt` strips the
prompt. -/
theorem enhance_none_cex :
    enhance_prompt " a " "None" false ≠ " a "
  ∧ enhance_prompt " a " "None" false ≠ " a " ++ QUALITY_SUFFIX
  ∧ enhance_prompt " a " "None" true ≠ " a "
  ∧ enhance_prompt " a " "None" true ≠ " a " ++ QUALITY_SUFFIX := by
  decide

/-- C7 (amended): when the style key is `"None"` or absent from the
preset table, the enhanced prompt is exactly the stripped prompt, with
the quality-boost suffix appended when enabled. -/
theorem enhance_none_returns_trimmed (prompt style : String) (qb : Bool)
    (h : style = "None" ∨ style ∉ STYLE_PRESETS.map Prod.fst) :
    enhance_prompt prompt style qb
      = pyStrip prompt ++ (if qb then QUALITY_SUFFIX else "") := by
  rcases h with rfl | hnot
  · cases qb <;> simp [enhance_prompt, String.append_empty]
  · have hfind : dictFind STYLE_PRESETS style = none := by
      simp only [dictFind]
      rw [List.find?_eq_none.mpr]
      · rfl
      · intro x hx
        simp only [beq_iff_eq]
        intro hc
        exact hnot (List.mem_map.mpr ⟨x, hx, hc⟩)
    by_cases hs : style = "None"
    · subst hs
      cases qb <;> simp [enhance_prompt, String.append_empty]
    · cases qb <;> simp [enhance_prompt, hfind, hs, String.append_empty]

theorem enhance_none_returns_trimmed_witness :
    enhance_prompt " x " "None" true
      = pyStrip " x " ++ (if true then QUALITY_SUFFIX else "") :=
  enhance_none_returns_trimmed " x " "None" true (Or.inl rfl)

/-- C6 counterexample: a transform (image-to-image) request is issued with
timeout 120, not 60, and an upscale request with timeout 120, not 90. -/
theorem timeout_cex :
    ((img2img "h" "e" ⟨[]⟩ "p" none 65 30 1 none 0 "IMAGE_STRENGTH" (fun _ => [])
        (fun _ => ⟨200, "", [], ⟨none⟩⟩)).2.map HttpRequest.timeout) = [120]
  ∧ ((upscale_esrgan "h" ⟨[]⟩ none none (fun _ => [])
        (fun _ => ⟨200, "", [], ⟨none⟩⟩)).2.map HttpRequest.timeout) = [120]
  ∧ (120 : Nat) ≠ 60 ∧ (120 : Nat) ≠ 90 := by
  decide

/-- C6 (amended): every request of `generate_image` (the
`StabilityImageGenerator` path) carries timeout 60; `txt2img` (the studio
app's generate, a JSON POST) carries timeout 90; `img2img` (transform)
and `upscale_esrgan` (multipart POSTs) carry timeout 120. -/
theorem timeouts_per_operation :
    ∀ (api_key prompt aspect host engine : String) (init : Image) (neg sp : Option String)
      (w h cfg steps samples strength seed : Nat) (mode : String) (dw dh : Option Nat)
      (f : String → List Nat) (net : HttpRequest → HttpResponse),
      (generate_image api_key prompt aspect net).2.all (fun r => r.timeout == 60) = true
    ∧ (txt2img host engine prompt neg w h cfg steps samples sp seed f net).2.map
        HttpRequest.timeout = [90]
    ∧ (img2img host engine init prompt neg strength steps samples sp seed mode f net).2.map
        HttpRequest.timeout = [120]
    ∧ (upscale_esrgan host init dw dh f net).2.map HttpRequest.timeout = [120] := by
  intro api_key prompt aspect host engine init neg sp w h cfg steps samples strength seed
    mode dw dh f net
  refine ⟨?_, ?_, ?_, ?_⟩
  · simp only [generate_image]
    by_cases hk : api_key = ""
    · rw [if_pos hk]
      rfl
    · rw [if_neg hk]
      by_cases hs : (net (generate_image_request prompt aspect)).status = 200
      · rw [if_pos hs]
        rfl
      · rw [if_neg hs]
        rfl
  · rw [txt2img_trace]
    rfl
  · rw [img2img_trace]
    rfl
  · rw [upscale_trace]
    rfl

/-- C8: the enhanced prompt for `"a red fox"` with style
`"Photorealistic"` and quality boost enabled is exactly the expected
string, and one successful `generate_multiple` call with one variant
yields a result sequence of length 1. -/
theorem red_fox_scenario (api_key : String) (net : HttpRequest → HttpResponse)
    (hk : api_key ≠ "") (hok : ∀ req, (net req).status = 200) :
    enhance_prompt "a red fox" "Photorealistic" true
      = "a red fox, ultra-realistic, high-definition, professional photography, sharp details, high quality, detailed, professional, sharp focus"
  ∧ ∃ imgs cost,
      generate_multiple api_key "a red fox" 1 "Photorealistic" "Square (1:1)" net
        = .ok (imgs, cost) ∧ imgs.length = 1 := by
  refine ⟨by decide, ?_⟩
  have hgen : (generate_image api_key (enhance_prompt "a red fox" "Photorealistic" true)
          "1:1" net).1
      = .ok ⟨(net (generate_image_request
          (enhance_prompt "a red fox" "Photorealistic" true) "1:1")).content⟩ := by
    simp only [generate_image]
    rw [if_neg hk, if_pos (hok _)]
  have har : (dictFind ASPECT_RATIOS "Square (1:1)").getD "1:1" = "1:1" := rfl
  refine ⟨[⟨(net (generate_image_request
      (enhance_prompt "a red fox" "Photorealistic" true) "1:1")).content⟩],
    cost_per_image_hundredths, ?_, rfl⟩
  simp only [generate_multiple, generate_multiple_loop]
  rw [har, hgen]
  rfl

theorem red_fox_scenario_witness :
    ∃ imgs cost,
      generate_multiple "k" "a red fox" 1 "Photorealistic" "Square (1:1)"
          (fun _ => ⟨200, "", [7], ⟨none⟩⟩) = .ok (imgs, cost) ∧ imgs.length = 1 :=
  (red_fox_scenario "k" (fun _ => ⟨200, "", [7], ⟨none⟩⟩) (by decide)
      (fun _ => rfl)).2

end AIImageStudio
